import Mathlib

/-!
Shallow embedding of `internal/service/opensearch/authorized_principal.go`
(the `aws_opensearch_authorized_principal` resource of the Terraform AWS
provider fragment) and the parts of its collaborators that the verified
properties need.

The source file contains two drafts of the resource.  The second draft
(the multi-principal one, `FindAuthorizedPrincipals` plus the canonical
`resourceAuthorizedPrincipalRead` / `resourceAuthorizedPrincipalUpsert` /
`resourceAuthorizedPrincipalDelete`) is embedded in full; the first
draft's filtering lookup `FindAuthorizedPrincipal` is embedded as well,
since it implements the spec-level `Read(domain_name, identifier)`
operation.

Remote calls are modelled by passing the remote behaviour in explicitly:
the AWS SDK client becomes a record of functions, and each resource
operation additionally returns the trace of remote calls it issued, so
that "never makes the call" / "always makes the call" properties are
statable.
-/

deriving instance DecidableEq for Except

namespace OpenSearch

/-- An entry of `output.AuthorizedPrincipalList`
(`opensearchservice.AuthorizedPrincipal`).  The Go fields are `*string`;
the embedding keeps them as plain strings (the code dereferences them
unconditionally), while the surrounding pointer of each list entry is
kept as an `Option` because `FindAuthorizedPrincipals` explicitly tests
`output.AuthorizedPrincipalList[0] == nil`. -/
structure AuthorizedPrincipal where
  principal : String
  principalType : String
deriving Repr, DecidableEq

/-- An error returned by a remote AWS call: either a typed AWS service
error carrying a code (what `tfawserr.ErrCodeEquals` inspects), or any
other transport-level error. -/
inductive RemoteErr where
  | aws (code message : String)
  | other (message : String)
deriving Repr, DecidableEq

/-- `tfawserr.ErrCodeEquals(err, code)`: true iff the error is an AWS
service error whose code equals `code`. -/
def ErrCodeEquals : RemoteErr → String → Bool
  | .aws c _, code => c == code
  | .other _, _ => false

/-- `opensearchservice.ErrCodeResourceNotFoundException`. -/
def ErrCodeResourceNotFoundException : String := "ResourceNotFoundException"

/-- Result of `conn.ListVpcEndpointAccess`: an error, or an output whose
`AuthorizedPrincipalList` is a slice of pointers (`Option`) to
principals.  The outer `Option` models a nil `output` pointer, which the
code also tests for. -/
def ListResult : Type := Except RemoteErr (Option (List (Option AuthorizedPrincipal)))

/-- The identifier derivation inlined at both `d.SetId` call sites and in
`FindAuthorizedPrincipal`:
`"authorized-principal-" + principal + "-" + principalType + "-" + domainName`. -/
def authorizedPrincipalID (principal principalType domainName : String) : String :=
  "authorized-principal-" ++ principal ++ "-" ++ principalType ++ "-" ++ domainName

/-- Errors out of the first draft's `FindAuthorizedPrincipal`: the remote
list error passed through unchanged, or a Go nil-pointer panic (the
draft dereferences `output` and every entry without a nil check). -/
inductive FindOneError where
  | listError (e : RemoteErr)
  | nilOutputPanic
  | nilEntryPanic
deriving Repr, DecidableEq

/-- The `for _, principal := range output.AuthorizedPrincipalList` loop of
`FindAuthorizedPrincipal`: returns the first entry whose derived
identifier equals `id`, `none` when no entry matches, and a panic when a
nil entry is dereferenced before a match is found. -/
def findLoop (id domainName : String) :
    List (Option AuthorizedPrincipal) → Except FindOneError (Option AuthorizedPrincipal)
  | [] => .ok none
  | none :: _ => .error .nilEntryPanic
  | some principal :: rest =>
      if id = authorizedPrincipalID principal.principal principal.principalType domainName then
        .ok (some principal)
      else
        findLoop id domainName rest

/-- `FindAuthorizedPrincipal` (first draft, source lines 89-107): lists
all authorized principals for the domain, then filters locally for the
entry whose derived identifier matches `id`; `(nil, nil)` — here
`.ok none` — when nothing matches.  A remote error is returned as-is. -/
def FindAuthorizedPrincipal (resp : ListResult) (domainName id : String) :
    Except FindOneError (Option AuthorizedPrincipal) :=
  match resp with
  | .error e => .error (.listError e)
  | .ok none => .error .nilOutputPanic
  | .ok (some list) => findLoop id domainName list

/-- Errors out of `FindAuthorizedPrincipals` (second draft): the typed
`retry.NotFoundError` wrapping the service error, the
`tfresource.NewEmptyResultError(input)` for an empty list, or the raw
remote error passed through. -/
inductive FindsError where
  | notFoundError (lastError : RemoteErr)
  | emptyResult
  | raw (e : RemoteErr)
deriving Repr, DecidableEq

/-- `FindAuthorizedPrincipals` (source lines 207-231): lists access for
the domain; a `ResourceNotFoundException`-coded failure becomes a typed
`retry.NotFoundError`, any other failure is returned unchanged, a nil
output / empty list / nil first entry becomes an empty-result error, and
otherwise the whole `AuthorizedPrincipalList` is returned.  The `id`
argument is accepted but never used. -/
def FindAuthorizedPrincipals (resp : ListResult) (domainName id : String) :
    Except FindsError (List (Option AuthorizedPrincipal)) :=
  match resp with
  | .error err =>
      if ErrCodeEquals err ErrCodeResourceNotFoundException then
        .error (.notFoundError err)
      else
        .error (.raw err)
  | .ok output =>
      match output with
      | none => .error .emptyResult
      | some list =>
          if list.isEmpty || list.head? == some none then
            .error .emptyResult
          else
            .ok list

/-- `schema.DefaultTimeout(n)` just records the default duration. -/
def DefaultTimeout (n : Nat) : Nat := n

/-- `time.Minute` measured in seconds. -/
def timeMinute : Nat := 60

/-- A field of the provider schema (only the parts the properties need). -/
structure SchemaField where
  required : Bool
deriving Repr, DecidableEq

/-- The resource descriptor built by `ResourceAuthorizedPrincipal`
(source lines 129-157): the three operation timeouts default to
`10 * time.Minute` and both `domain_name` and `account` are declared
`Required` (with no further validation attached). -/
structure SchemaResource where
  timeoutCreateDefault : Nat
  timeoutUpdateDefault : Nat
  timeoutDeleteDefault : Nat
  domain_name : SchemaField
  account : SchemaField
deriving Repr, DecidableEq

/-- `ResourceAuthorizedPrincipal` (source lines 129-157). -/
def ResourceAuthorizedPrincipal : SchemaResource :=
  { timeoutCreateDefault := DefaultTimeout (10 * timeMinute)
    timeoutUpdateDefault := DefaultTimeout (10 * timeMinute)
    timeoutDeleteDefault := DefaultTimeout (10 * timeMinute)
    domain_name := { required := true }
    account := { required := true } }

/-- `*schema.ResourceData`: the slice of Terraform resource state the
code touches.  `timeoutCreate` / `timeoutDelete` are the user-configured
overrides (`none` means "use the schema default", which is what
`d.Timeout(key)` resolves). -/
structure ResourceData where
  id : String
  domain_name : String
  account : String
  isNew : Bool
  timeoutCreate : Option Nat := none
  timeoutDelete : Option Nat := none
  authorized_principals : Option (List (Option AuthorizedPrincipal)) := none
deriving Repr, DecidableEq

/-- `d.Timeout(key)`: the configured override if present, else the
schema default for that key. -/
def ResourceData.timeoutOf (override : Option Nat) (dflt : Nat) : Nat :=
  override.getD dflt

/-- Output of a successful `conn.AuthorizeVpcEndpointAccess`: the
`output.AuthorizedPrincipal` the code dereferences for `Principal` and
`PrincipalType`. -/
structure AuthorizeOutput where
  principal : String
  principalType : String
deriving Repr, DecidableEq

/-- The remote AWS OpenSearch client, as the record of the four calls the
resource issues.  `waitForDomainUpdate` is the settle-wait helper the
source invokes (its body lives outside this fragment); here it is part
of the remote behaviour: it takes the domain name and the resolved
timeout and reports whether the domain settled. -/
structure Remote where
  authorizeVpcEndpointAccess : String → String → Except RemoteErr AuthorizeOutput
  listVpcEndpointAccess : String → ListResult
  revokeVpcEndpointAccess : String → String → Except RemoteErr Unit
  waitForDomainUpdate : String → Nat → Except RemoteErr Unit

/-- One remote call, for tracing which calls an operation issues. -/
inductive RemoteCall where
  | authorize (domainName account : String)
  | listAccess (domainName : String)
  | revoke (domainName account : String)
  | waitDomainUpdate (domainName : String) (timeout : Nat)
deriving Repr, DecidableEq

/-- The outcome a resource operation hands back to the framework: empty
diagnostics (success) or an error diagnostic with its context prefix. -/
inductive Outcome where
  | success
  | errorDiag (msg : String)
deriving Repr, DecidableEq

/-- Modelled from the spec: `tfresource.NotFound` (from
`internal/tfresource`, which is not part of this fragment) classifies an
error as a not-found condition.  Per the spec's error taxonomy, a
`NotFoundError` is "the domain or principal does not exist": the typed
not-found error and the empty-result error both classify as not-found,
other errors and the absence of an error do not. -/
def tfresourceNotFound : Option FindsError → Bool
  | some (.notFoundError _) => true
  | some .emptyResult => true
  | some (.raw _) => false
  | none => false

/-- The error side of a `FindAuthorizedPrincipals` result, as the `err`
variable of the Go caller. -/
def findsErr : Except FindsError (List (Option AuthorizedPrincipal)) → Option FindsError
  | .error e => some e
  | .ok _ => none

/-- The value side of a `FindAuthorizedPrincipals` result, as the
`principals` variable of the Go caller (empty when an error occurred;
that branch is unreachable where it is used). -/
def findsPrincipals : Except FindsError (List (Option AuthorizedPrincipal)) →
    List (Option AuthorizedPrincipal)
  | .error _ => []
  | .ok l => l

/-- `resourceAuthorizedPrincipalRead` (source lines 186-205): finds the
principals, and
* when the resource is not new AND the error is not a not-found error,
  logs, clears the stored identifier (`d.SetId("")`) and returns empty
  diagnostics;
* otherwise a non-nil error becomes an error diagnostic;
* otherwise the principal list is stored and empty diagnostics are
  returned.
Returns the updated state, the outcome, and the remote calls issued. -/
def resourceAuthorizedPrincipalRead (remote : Remote) (d : ResourceData) :
    ResourceData × Outcome × List RemoteCall :=
  let found := FindAuthorizedPrincipals (remote.listVpcEndpointAccess d.domain_name)
      d.domain_name d.id
  let err := findsErr found
  let calls := [RemoteCall.listAccess d.domain_name]
  if !d.isNew && !tfresourceNotFound err then
    ({ d with id := "" }, .success, calls)
  else if err.isSome then
    (d, .errorDiag "reading OpenSearch Authorized Principal", calls)
  else
    ({ d with authorized_principals := some (findsPrincipals found) }, .success, calls)

/-- `resourceAuthorizedPrincipalUpsert` (source lines 159-184, the
Create and Update handler): issues the authorize call, derives and
stores the identifier from the returned principal, settle-waits on the
domain with the create timeout, then delegates to the Read handler,
appending its diagnostics. -/
def resourceAuthorizedPrincipalUpsert (remote : Remote) (d : ResourceData) :
    ResourceData × Outcome × List RemoteCall :=
  let domain_name := d.domain_name
  match remote.authorizeVpcEndpointAccess d.domain_name d.account with
  | .error _ =>
      (d, .errorDiag "Error authorizing Principal",
        [.authorize d.domain_name d.account])
  | .ok output =>
      let d1 := { d with id :=
        authorizedPrincipalID output.principal output.principalType domain_name }
      let timeout := ResourceData.timeoutOf d.timeoutCreate
        ResourceAuthorizedPrincipal.timeoutCreateDefault
      match remote.waitForDomainUpdate domain_name timeout with
      | .error _ =>
          (d1, .errorDiag "Error authorizing principal",
            [.authorize d.domain_name d.account, .waitDomainUpdate domain_name timeout])
      | .ok _ =>
          let (d2, outcome, readCalls) := resourceAuthorizedPrincipalRead remote d1
          (d2, outcome,
            [.authorize d.domain_name d.account, .waitDomainUpdate domain_name timeout]
              ++ readCalls)

/-- `resourceAuthorizedPrincipalDelete` (source lines 233-253): issues
the revoke call for (domain_name, account); a revoke error is an error
diagnostic, otherwise the settle-wait runs with the delete timeout and
its failure is an error diagnostic; otherwise empty diagnostics. -/
def resourceAuthorizedPrincipalDelete (remote : Remote) (d : ResourceData) :
    ResourceData × Outcome × List RemoteCall :=
  match remote.revokeVpcEndpointAccess d.domain_name d.account with
  | .error _ =>
      (d, .errorDiag "Error rejecting principal", [.revoke d.domain_name d.account])
  | .ok _ =>
      let timeout := ResourceData.timeoutOf d.timeoutDelete
        ResourceAuthorizedPrincipal.timeoutDeleteDefault
      match remote.waitForDomainUpdate d.domain_name timeout with
      | .error _ =>
          (d, .errorDiag "Error rejecting principal",
            [.revoke d.domain_name d.account,
              .waitDomainUpdate d.domain_name timeout])
      | .ok _ =>
          (d, .success,
            [.revoke d.domain_name d.account,
              .waitDomainUpdate d.domain_name timeout])

/-- Modelled from the spec: the state of the remote access-control
service (the AWS OpenSearch side, which is an external collaborator, not
code of this fragment): for each existing domain, the list of authorized
accounts.  Per the spec's external-interface contract,
`RevokeAccess(domain, account)` returns ok — revoking an absent
principal is a no-op — and fails only with the distinguishable
"domain not found" condition. -/
structure RemoteState where
  domains : List (String × List String)
deriving Repr, DecidableEq

/-- Whether the domain exists on the remote side. -/
def RemoteState.domainExists (s : RemoteState) (domainName : String) : Bool :=
  s.domains.any (fun p => p.1 == domainName)

/-- Whether the account is currently authorized for the domain. -/
def RemoteState.authorized (s : RemoteState) (domainName account : String) : Bool :=
  s.domains.any (fun p => p.1 == domainName && p.2.contains account)

/-- Modelled from the spec: the remote `RevokeAccess` transition —
domain missing is the "domain not found" failure; otherwise success,
removing the account if it was present (no-op if absent). -/
def RemoteState.revoke (s : RemoteState) (domainName account : String) :
    Except RemoteErr RemoteState :=
  if s.domainExists domainName then
    .ok ⟨s.domains.map fun p =>
      if p.1 == domainName then (p.1, p.2.erase account) else p⟩
  else
    .error (.aws ErrCodeResourceNotFoundException "domain not found")

/-- The AWS client behaviour induced by a remote state: revoke follows
the spec's revoke transition, and the settle-wait succeeds as long as
the domain exists (it fails permanently when the domain was deleted).
The authorize and list calls are not exercised by the delete path. -/
def RemoteState.remote (s : RemoteState) : Remote where
  authorizeVpcEndpointAccess := fun _ _ => .error (.other "unused")
  listVpcEndpointAccess := fun _ => .error (.other "unused")
  revokeVpcEndpointAccess := fun domainName account =>
    match s.revoke domainName account with
    | .ok _ => .ok ()
    | .error e => .error e
  waitForDomainUpdate := fun domainName _ =>
    if s.domainExists domainName then .ok () else .error (.other "domain deleted")

/-- Running the Delete handler against remote state `s`: the outcome the
handler reports, together with the remote state after the revoke call
(unchanged when the revoke was rejected). -/
def deleteOnState (s : RemoteState) (d : ResourceData) : RemoteState × Outcome :=
  ((s.revoke d.domain_name d.account).toOption.getD s,
    (resourceAuthorizedPrincipalDelete s.remote d).2.1)

/-! Concrete fixtures used to evaluate the embedded operations. -/

/-- The principal entry the spec's scenarios use. -/
def principal123 : AuthorizedPrincipal :=
  { principal := "123456789012", principalType := "ACCOUNT" }

/-- A non-new (refresh-phase) resource state for the scenario domain. -/
def dLogsProd : ResourceData :=
  { id := "authorized-principal-123456789012-ACCOUNT-logs-prod"
    domain_name := "logs-prod"
    account := "123456789012"
    isNew := false }

/-- A brand-new resource state whose required fields are empty strings. -/
def dEmptyFields : ResourceData :=
  { id := "", domain_name := "", account := "", isNew := true }

/-- A remote whose list call reports a domain with zero authorized
principals and whose settle-wait succeeds. -/
def remoteEmptyList : Remote where
  authorizeVpcEndpointAccess := fun _ _ => .error (.other "unused")
  listVpcEndpointAccess := fun _ => .ok (some [])
  revokeVpcEndpointAccess := fun _ _ => .error (.other "unused")
  waitForDomainUpdate := fun _ _ => .ok ()

/-- A remote on which every call succeeds and the domain lists exactly
the 123456789012 entry. -/
def remoteOneEntry : Remote where
  authorizeVpcEndpointAccess := fun _ _ => .ok ⟨"123456789012", "ACCOUNT"⟩
  listVpcEndpointAccess := fun _ => .ok (some [some principal123])
  revokeVpcEndpointAccess := fun _ _ => .ok ()
  waitForDomainUpdate := fun _ _ => .ok ()

/-- A remote whose mutating calls succeed but whose settle-wait fails. -/
def remoteWaitFails : Remote where
  authorizeVpcEndpointAccess := fun _ _ => .ok ⟨"123456789012", "ACCOUNT"⟩
  listVpcEndpointAccess := fun _ => .ok (some [some principal123])
  revokeVpcEndpointAccess := fun _ _ => .ok ()
  waitForDomainUpdate := fun _ _ => .error (.other "timed out waiting for state")

/-- The scenario domain existing remotely with no authorized accounts. -/
def stateLogsProd : RemoteState := ⟨[("logs-prod", [])]⟩

/-- A remote on which the list call fails with the service's
resource-not-found error code: the domain itself does not exist. -/
def remoteDomainMissing : Remote where
  authorizeVpcEndpointAccess := fun _ _ => .error (.other "unused")
  listVpcEndpointAccess := fun _ =>
    .error (.aws ErrCodeResourceNotFoundException "domain not found")
  revokeVpcEndpointAccess := fun _ _ => .error (.other "unused")
  waitForDomainUpdate := fun _ _ => .ok ()

/-! Helper lemmas. -/

/-- Characterization of the filtering loop of `FindAuthorizedPrincipal`
on a list without nil entries: either it returns some entry of the list
whose derived identifier is the supplied one, or it returns `none` and
no entry of the list has the supplied identifier. -/
theorem findLoop_spec (id domainName : String)
    (list : List (Option AuthorizedPrincipal)) (hwf : ∀ e ∈ list, e ≠ none) :
    (∃ p, findLoop id domainName list = .ok (some p) ∧ some p ∈ list ∧
        id = authorizedPrincipalID p.principal p.principalType domainName) ∨
    (findLoop id domainName list = .ok none ∧
      ∀ p, some p ∈ list →
        id ≠ authorizedPrincipalID p.principal p.principalType domainName) := by
  induction list with
  | nil =>
      right
      exact ⟨rfl, by simp⟩
  | cons e rest ih =>
      match e with
      | none => exact absurd rfl (hwf none (List.mem_cons_self _ _))
      | some q =>
          by_cases hid : id = authorizedPrincipalID q.principal q.principalType domainName
          · left
            exact ⟨q, by simp [findLoop, hid], List.mem_cons_self _ _, hid⟩
          · have hwf' : ∀ e ∈ rest, e ≠ none := fun e he =>
              hwf e (List.mem_cons_of_mem _ he)
            rcases ih hwf' with ⟨p, h1, h2, h3⟩ | ⟨h1, h2⟩
            · left
              exact ⟨p, by simp [findLoop, hid, h1], List.mem_cons_of_mem _ h2, h3⟩
            · right
              refine ⟨by simp [findLoop, hid, h1], ?_⟩
              intro p hp
              rcases List.mem_cons.mp hp with h | h
              · obtain rfl : p = q := Option.some.inj h
                exact hid
              · exact h2 p h

/-- The character data of a derived identifier, fully right-associated. -/
theorem authorizedPrincipalID_data (p t d : String) :
    (authorizedPrincipalID p t d).data =
      "authorized-principal-".data ++
        (p.data ++ ("-".data ++ (t.data ++ ("-".data ++ d.data)))) := by
  simp [authorizedPrincipalID, String.data_append, List.append_assoc]

/-- Two derived identifiers agreeing while principal type and domain are
fixed force equal principals. -/
theorem authorizedPrincipalID_inj_principal (p p' t d : String)
    (h : authorizedPrincipalID p t d = authorizedPrincipalID p' t d) : p = p' := by
  have hd := congrArg String.data h
  rw [authorizedPrincipalID_data, authorizedPrincipalID_data] at hd
  exact String.ext (List.append_cancel_right (List.append_cancel_left hd))

/-- Two derived identifiers agreeing while principal and domain are
fixed force equal principal types. -/
theorem authorizedPrincipalID_inj_type (p t t' d : String)
    (h : authorizedPrincipalID p t d = authorizedPrincipalID p t' d) : t = t' := by
  have hd := congrArg String.data h
  rw [authorizedPrincipalID_data, authorizedPrincipalID_data] at hd
  exact String.ext (List.append_cancel_right
    (List.append_cancel_left (List.append_cancel_left (List.append_cancel_left hd))))

/-- Two derived identifiers agreeing while principal and principal type
are fixed force equal domain names. -/
theorem authorizedPrincipalID_inj_domain (p t d d' : String)
    (h : authorizedPrincipalID p t d = authorizedPrincipalID p t d') : d = d' := by
  have hd := congrArg String.data h
  rw [authorizedPrincipalID_data, authorizedPrincipalID_data] at hd
  exact String.ext (List.append_cancel_left (List.append_cancel_left
    (List.append_cancel_left (List.append_cancel_left (List.append_cancel_left hd)))))

/-! Claim theorems. -/

/-- Claim C9: `FindAuthorizedPrincipals` ignores its `id` argument —
for the same domain and the same remote list response, any two supplied
identifiers yield the same result; the list is never filtered by the
identifier. -/
theorem C9_finds_ignores_id (resp : ListResult) (domainName id1 id2 : String) :
    FindAuthorizedPrincipals resp domainName id1 =
      FindAuthorizedPrincipals resp domainName id2 := rfl

/-- Claim C4: a remote list call that succeeds with zero authorized
principals is absence, not an error: the spec-level Read
(`FindAuthorizedPrincipal`) returns `(nil, nil)` — an absent result with
no error — and `FindAuthorizedPrincipals` returns the empty-result
error, which the not-found classifier treats as a not-found condition
(absence), distinguished from a transient failure. -/
theorem C4_empty_list_is_absence (domainName id : String) :
    FindAuthorizedPrincipal (.ok (some [])) domainName id = .ok none ∧
    FindAuthorizedPrincipals (.ok (some [])) domainName id = .error .emptyResult ∧
    tfresourceNotFound
      (findsErr (FindAuthorizedPrincipals (.ok (some [])) domainName id)) = true :=
  ⟨rfl, rfl, rfl⟩

/-- Claim C2: evaluation at the failing input.  A non-new resource whose
domain lists zero authorized principals (so the find reports the
not-found condition) is NOT removed from tracking: the Read handler
returns a hard error diagnostic and leaves the stored identifier in
place, contradicting the claimed (and logged) "not found, removing from
state" behaviour — the guard negates `tfresource.NotFound(err)` instead
of testing it. -/
theorem C2_not_found_on_refresh_is_hard_error :
    (resourceAuthorizedPrincipalRead remoteEmptyList dLogsProd).2.1 =
      .errorDiag "reading OpenSearch Authorized Principal" ∧
    (resourceAuthorizedPrincipalRead remoteEmptyList dLogsProd).1.id =
      dLogsProd.id ∧
    (resourceAuthorizedPrincipalRead remoteDomainMissing dLogsProd).2.1 =
      .errorDiag "reading OpenSearch Authorized Principal" ∧
    (resourceAuthorizedPrincipalRead remoteDomainMissing dLogsProd).1.id =
      dLogsProd.id := by
  exact ⟨rfl, rfl, rfl, rfl⟩

/-- Claim C1: the spec-level Read (`FindAuthorizedPrincipal`) lists all
authorized principals for the domain and filters locally: on a
well-formed response it returns an entry of the list whose derived
identifier equals the supplied identifier, and an absent result exactly
when no entry matches; in particular, the 999999999999 identifier
against a list containing only the 123456789012 entry yields an absent
result with no error. -/
theorem C1_read_filters_by_derived_identifier
    (list : List (Option AuthorizedPrincipal)) (domainName id : String)
    (hwf : ∀ e ∈ list, e ≠ none) :
    (∃ r, FindAuthorizedPrincipal (.ok (some list)) domainName id = .ok r ∧
      (∀ p, r = some p → some p ∈ list ∧
        id = authorizedPrincipalID p.principal p.principalType domainName) ∧
      (r = none → ∀ p, some p ∈ list →
        id ≠ authorizedPrincipalID p.principal p.principalType domainName)) ∧
    FindAuthorizedPrincipal (.ok (some [some principal123])) "logs-prod"
        "authorized-principal-999999999999-ACCOUNT-logs-prod" = .ok none := by
  constructor
  · rcases findLoop_spec id domainName list hwf with ⟨p, h1, h2, h3⟩ | ⟨h1, h2⟩
    · refine ⟨some p, h1, ?_, by simp⟩
      intro p' hp'
      obtain rfl : p = p' := Option.some.inj hp'
      exact ⟨h2, h3⟩
    · exact ⟨none, h1, by simp, fun _ => h2⟩
  · decide

/-- Witness for C1 at a concrete input: the singleton 123456789012 list
is well-formed, and the theorem applies to it. -/
theorem C1_witness :
    (∀ e ∈ [some principal123], e ≠ none) ∧
    ((∃ r, FindAuthorizedPrincipal (.ok (some [some principal123]))
          "logs-prod" "authorized-principal-123456789012-ACCOUNT-logs-prod" = .ok r ∧
      (∀ p, r = some p → some p ∈ [some principal123] ∧
        "authorized-principal-123456789012-ACCOUNT-logs-prod" =
          authorizedPrincipalID p.principal p.principalType "logs-prod") ∧
      (r = none → ∀ p, some p ∈ [some principal123] →
        "authorized-principal-123456789012-ACCOUNT-logs-prod" ≠
          authorizedPrincipalID p.principal p.principalType "logs-prod")) ∧
    FindAuthorizedPrincipal (.ok (some [some principal123])) "logs-prod"
        "authorized-principal-999999999999-ACCOUNT-logs-prod" = .ok none) :=
  ⟨by decide,
    C1_read_filters_by_derived_identifier [some principal123] "logs-prod"
      "authorized-principal-123456789012-ACCOUNT-logs-prod" (by decide)⟩

/-- Claim C5: identifier derivation is pure and deterministic — it is
the function
`authorized-principal-{principal}-{principal_type}-{domain_name}`, the
scenario inputs yield the scenario identifier, computing it twice yields
identical strings, and changing any single input while the other two are
fixed changes the identifier. -/
theorem C5_identifier_derivation :
    authorizedPrincipalID "123456789012" "ACCOUNT" "logs-prod" =
      "authorized-principal-123456789012-ACCOUNT-logs-prod" ∧
    (∀ p t d, authorizedPrincipalID p t d = authorizedPrincipalID p t d) ∧
    (∀ p p' t d, p ≠ p' →
      authorizedPrincipalID p t d ≠ authorizedPrincipalID p' t d) ∧
    (∀ p t t' d, t ≠ t' →
      authorizedPrincipalID p t d ≠ authorizedPrincipalID p t' d) ∧
    (∀ p t d d', d ≠ d' →
      authorizedPrincipalID p t d ≠ authorizedPrincipalID p t d') := by
  refine ⟨by decide, fun _ _ _ => rfl, ?_, ?_, ?_⟩
  · exact fun p p' t d hne h => hne (authorizedPrincipalID_inj_principal p p' t d h)
  · exact fun p t t' d hne h => hne (authorizedPrincipalID_inj_type p t t' d h)
  · exact fun p t d d' hne h => hne (authorizedPrincipalID_inj_domain p t d d' h)

/-- Witness for C5 at concrete inputs: changing the principal, the
principal type, or the domain name alone each changes the identifier. -/
theorem C5_witness :
    authorizedPrincipalID "123456789012" "ACCOUNT" "logs-prod" ≠
      authorizedPrincipalID "999999999999" "ACCOUNT" "logs-prod" ∧
    authorizedPrincipalID "123456789012" "ACCOUNT" "logs-prod" ≠
      authorizedPrincipalID "123456789012" "SERVICE" "logs-prod" ∧
    authorizedPrincipalID "123456789012" "ACCOUNT" "logs-prod" ≠
      authorizedPrincipalID "123456789012" "ACCOUNT" "logs-dev" :=
  ⟨C5_identifier_derivation.2.2.1 "123456789012" "999999999999" "ACCOUNT" "logs-prod"
      (by decide),
   C5_identifier_derivation.2.2.2.1 "123456789012" "ACCOUNT" "SERVICE" "logs-prod"
      (by decide),
   C5_identifier_derivation.2.2.2.2 "123456789012" "ACCOUNT" "logs-prod" "logs-dev"
      (by decide)⟩

/-- Claim C7: a remote list failure carrying the service's
resource-not-found error code yields the typed not-found error wrapping
that failure; any other remote failure is propagated unchanged and is
not the typed not-found error; and a principal absent in an existing
domain (empty list, or a list without the principal — which
`FindAuthorizedPrincipals` returns whole) never produces the typed
not-found error. -/
theorem C7_domain_not_found_is_typed (domainName id msg : String) (e : RemoteErr)
    (hcode : ErrCodeEquals e ErrCodeResourceNotFoundException = false)
    (list : List (Option AuthorizedPrincipal))
    (hne : list.isEmpty = false) (hhd : list.head? ≠ some none) :
    FindAuthorizedPrincipals
        (.error (.aws ErrCodeResourceNotFoundException msg)) domainName id =
      .error (.notFoundError (.aws ErrCodeResourceNotFoundException msg)) ∧
    FindAuthorizedPrincipals (.error e) domainName id = .error (.raw e) ∧
    (∀ le, FindsError.raw e ≠ FindsError.notFoundError le) ∧
    FindAuthorizedPrincipals (.ok (some [])) domainName id = .error .emptyResult ∧
    (∀ le, FindsError.emptyResult ≠ FindsError.notFoundError le) ∧
    FindAuthorizedPrincipals (.ok (some list)) domainName id = .ok list := by
  refine ⟨by simp [FindAuthorizedPrincipals, ErrCodeEquals, ErrCodeResourceNotFoundException],
    by simp [FindAuthorizedPrincipals, hcode],
    fun le h => FindsError.noConfusion h,
    rfl,
    fun le h => FindsError.noConfusion h,
    ?_⟩
  have hbeq : (list.head? == some none) = false := by
    cases hh : list.head? with
    | none => rfl
    | some a =>
        cases a with
        | none => exact absurd hh hhd
        | some q => simp
  simp [FindAuthorizedPrincipals, hne, hbeq]

/-- Witness for C7 at concrete inputs: a transport error is not
resource-not-found-coded, and the singleton 123456789012 list is
non-empty with a non-nil first entry. -/
theorem C7_witness :
    FindAuthorizedPrincipals
        (.error (.aws ErrCodeResourceNotFoundException "no such domain"))
        "logs-prod" "id1" =
      .error (.notFoundError (.aws ErrCodeResourceNotFoundException "no such domain")) ∧
    FindAuthorizedPrincipals (.error (.other "connection reset")) "logs-prod" "id1" =
      .error (.raw (.other "connection reset")) ∧
    (∀ le, FindsError.raw (.other "connection reset") ≠ FindsError.notFoundError le) ∧
    FindAuthorizedPrincipals (.ok (some [])) "logs-prod" "id1" = .error .emptyResult ∧
    (∀ le, FindsError.emptyResult ≠ FindsError.notFoundError le) ∧
    FindAuthorizedPrincipals (.ok (some [some principal123])) "logs-prod" "id1" =
      .ok [some principal123] :=
  C7_domain_not_found_is_typed "logs-prod" "id1" "no such domain"
    (.other "connection reset") rfl [some principal123] rfl (by decide)

/-- Claim C10: for a non-new resource, when the find succeeds without
error (the remote list call returns a non-empty well-formed principal
list), the Read handler still clears the stored identifier and returns
immediately with empty diagnostics, because its state-removal guard
fires exactly when the error is not classified not-found — and no error
at all is not classified not-found. -/
theorem C10_success_clears_state (remote : Remote) (d : ResourceData)
    (list : List (Option AuthorizedPrincipal))
    (hnew : d.isNew = false)
    (hresp : remote.listVpcEndpointAccess d.domain_name = .ok (some list))
    (hne : list.isEmpty = false) (hhd : list.head? ≠ some none) :
    resourceAuthorizedPrincipalRead remote d =
      ({ d with id := "" }, .success, [.listAccess d.domain_name]) ∧
    tfresourceNotFound none = false := by
  have hbeq : (list.head? == some none) = false := by
    cases hh : list.head? with
    | none => rfl
    | some a =>
        cases a with
        | none => exact absurd hh hhd
        | some q => simp
  refine ⟨?_, rfl⟩
  simp [resourceAuthorizedPrincipalRead, FindAuthorizedPrincipals, hresp, hne, hbeq,
    findsErr, tfresourceNotFound, hnew]

/-- Witness for C10 at a concrete input: refreshing the logs-prod
resource against a remote that does list its principal still wipes the
stored identifier and reports success. -/
theorem C10_witness :
    resourceAuthorizedPrincipalRead remoteOneEntry dLogsProd =
      ({ dLogsProd with id := "" }, .success, [.listAccess dLogsProd.domain_name]) :=
  (C10_success_clears_state remoteOneEntry dLogsProd [some principal123]
    rfl rfl rfl (by decide)).1

/-- The revoke transition never changes which domains exist. -/
theorem revoke_preserves_domainExists (s : RemoteState) (domainName account dn : String)
    (s1 : RemoteState) (h : s.revoke domainName account = .ok s1) :
    s1.domainExists dn = s.domainExists dn := by
  unfold RemoteState.revoke at h
  split at h
  · injection h with h1
    subst h1
    simp only [RemoteState.domainExists, List.any_map]
    congr 1
    funext x
    by_cases hx : x.1 == domainName <;> simp [Function.comp, hx]
  · exact Except.noConfusion h

/-- Running the Delete handler against a remote state whose domain
exists succeeds and leaves the domain existing. -/
theorem deleteOnState_success (s : RemoteState) (d : ResourceData)
    (hdom : s.domainExists d.domain_name = true) :
    (deleteOnState s d).2 = .success ∧
    (deleteOnState s d).1.domainExists d.domain_name = true := by
  have hrev : s.revoke d.domain_name d.account =
      .ok ⟨s.domains.map fun p =>
        if p.1 == d.domain_name then (p.1, p.2.erase d.account) else p⟩ := by
    simp [RemoteState.revoke, hdom]
  constructor
  · simp [deleteOnState, resourceAuthorizedPrincipalDelete, RemoteState.remote,
      hrev, hdom]
  · simp only [deleteOnState, hrev, Except.toOption, Option.getD]
    rw [revoke_preserves_domainExists s d.domain_name d.account d.domain_name _ hrev]
    exact hdom

/-- Claim C3: when the principal is already absent on the remote side at
delete time, Delete returns success (already-deleted is not an error),
and invoking Delete twice in succession for the same request yields
success both times. -/
theorem C3_delete_absent_is_success (s : RemoteState) (d : ResourceData)
    (hdom : s.domainExists d.domain_name = true)
    (habs : s.authorized d.domain_name d.account = false) :
    (deleteOnState s d).2 = .success ∧
    (deleteOnState (deleteOnState s d).1 d).2 = .success := by
  obtain ⟨h1, h2⟩ := deleteOnState_success s d hdom
  exact ⟨h1, (deleteOnState_success _ d h2).1⟩

/-- Witness for C3 at a concrete input: the logs-prod domain exists with
no authorized accounts, and deleting the 123456789012 pairing twice
succeeds both times. -/
theorem C3_witness :
    (deleteOnState stateLogsProd dLogsProd).2 = .success ∧
    (deleteOnState (deleteOnState stateLogsProd dLogsProd).1 dLogsProd).2 = .success :=
  C3_delete_absent_is_success stateLogsProd dLogsProd (by decide) (by decide)

/-- Counterexample to claim C6 as stated: with both required fields
empty, Create/Update does not fail with a pre-call validation error —
it issues the authorize call for the empty values and (the remote
accepting them) completes successfully. -/
theorem C6_counterexample :
    dEmptyFields.domain_name = "" ∧ dEmptyFields.account = "" ∧
    RemoteCall.authorize "" "" ∈
      (resourceAuthorizedPrincipalUpsert remoteOneEntry dEmptyFields).2.2 ∧
    (resourceAuthorizedPrincipalUpsert remoteOneEntry dEmptyFields).2.1 = .success := by
  refine ⟨rfl, rfl, ?_, rfl⟩
  exact List.mem_cons_self _ _

/-- Claim C6 as amended: `domain_name` and `account` are declared
Required in the schema — the framework rejects configurations that omit
them before the handler runs — but no emptiness validation exists in the
handler: for every request, empty-valued or not, the very first remote
call Create/Update issues is the authorize call for the request's
values. -/
theorem C6_required_fields_no_empty_validation (remote : Remote) (d : ResourceData) :
    ResourceAuthorizedPrincipal.domain_name.required = true ∧
    ResourceAuthorizedPrincipal.account.required = true ∧
    (resourceAuthorizedPrincipalUpsert remote d).2.2.head? =
      some (.authorize d.domain_name d.account) := by
  refine ⟨rfl, rfl, ?_⟩
  cases hA : remote.authorizeVpcEndpointAccess d.domain_name d.account with
  | error e => simp [resourceAuthorizedPrincipalUpsert, hA]
  | ok out =>
      cases hW : remote.waitForDomainUpdate d.domain_name
          (ResourceData.timeoutOf d.timeoutCreate
            ResourceAuthorizedPrincipal.timeoutCreateDefault) with
      | error e => simp [resourceAuthorizedPrincipalUpsert, hA, hW]
      | ok u => simp [resourceAuthorizedPrincipalUpsert, hA, hW]

/-- Claim C8: once the mutating remote call succeeds, Create/Update and
Delete invoke the settle-wait with the resolved operation timeout — a
configurable value defaulting to `10 * time.Minute` — and a settle-wait
failure is returned to the caller as an error diagnostic, never
ignored. -/
theorem C8_settle_wait_invoked_and_fatal (remote : Remote) (d : ResourceData)
    (out : AuthorizeOutput)
    (hauth : remote.authorizeVpcEndpointAccess d.domain_name d.account = .ok out)
    (hrev : remote.revokeVpcEndpointAccess d.domain_name d.account = .ok ()) :
    (RemoteCall.waitDomainUpdate d.domain_name
        (ResourceData.timeoutOf d.timeoutCreate
          ResourceAuthorizedPrincipal.timeoutCreateDefault)
      ∈ (resourceAuthorizedPrincipalUpsert remote d).2.2) ∧
    (∀ e, remote.waitForDomainUpdate d.domain_name
        (ResourceData.timeoutOf d.timeoutCreate
          ResourceAuthorizedPrincipal.timeoutCreateDefault) = .error e →
      (resourceAuthorizedPrincipalUpsert remote d).2.1 =
        .errorDiag "Error authorizing principal") ∧
    (RemoteCall.waitDomainUpdate d.domain_name
        (ResourceData.timeoutOf d.timeoutDelete
          ResourceAuthorizedPrincipal.timeoutDeleteDefault)
      ∈ (resourceAuthorizedPrincipalDelete remote d).2.2) ∧
    (∀ e, remote.waitForDomainUpdate d.domain_name
        (ResourceData.timeoutOf d.timeoutDelete
          ResourceAuthorizedPrincipal.timeoutDeleteDefault) = .error e →
      (resourceAuthorizedPrincipalDelete remote d).2.1 =
        .errorDiag "Error rejecting principal") ∧
    ResourceAuthorizedPrincipal.timeoutCreateDefault = 10 * timeMinute ∧
    ResourceAuthorizedPrincipal.timeoutDeleteDefault = 10 * timeMinute ∧
    ResourceData.timeoutOf none ResourceAuthorizedPrincipal.timeoutCreateDefault =
      10 * timeMinute := by
  refine ⟨?_, ?_, ?_, ?_, rfl, rfl, rfl⟩
  · cases hW : remote.waitForDomainUpdate d.domain_name
        (ResourceData.timeoutOf d.timeoutCreate
          ResourceAuthorizedPrincipal.timeoutCreateDefault) with
    | error e => simp [resourceAuthorizedPrincipalUpsert, hauth, hW]
    | ok u => simp [resourceAuthorizedPrincipalUpsert, hauth, hW]
  · intro e hW
    simp [resourceAuthorizedPrincipalUpsert, hauth, hW]
  · cases hW : remote.waitForDomainUpdate d.domain_name
        (ResourceData.timeoutOf d.timeoutDelete
          ResourceAuthorizedPrincipal.timeoutDeleteDefault) with
    | error e => simp [resourceAuthorizedPrincipalDelete, hrev, hW]
    | ok u => simp [resourceAuthorizedPrincipalDelete, hrev, hW]
  · intro e hW
    simp [resourceAuthorizedPrincipalDelete, hrev, hW]

/-- Witness for C8 at a concrete input: against a remote whose mutating
calls succeed but whose settle-wait fails, both Create/Update and Delete
surface the settle-wait failure as an error diagnostic. -/
theorem C8_witness :
    (resourceAuthorizedPrincipalUpsert remoteWaitFails dLogsProd).2.1 =
      .errorDiag "Error authorizing principal" ∧
    (resourceAuthorizedPrincipalDelete remoteWaitFails dLogsProd).2.1 =
      .errorDiag "Error rejecting principal" :=
  ⟨(C8_settle_wait_invoked_and_fatal remoteWaitFails dLogsProd
      ⟨"123456789012", "ACCOUNT"⟩ rfl rfl).2.1
      (.other "timed out waiting for state") rfl,
   (C8_settle_wait_invoked_and_fatal remoteWaitFails dLogsProd
      ⟨"123456789012", "ACCOUNT"⟩ rfl rfl).2.2.2.1
      (.other "timed out waiting for state") rfl⟩

end OpenSearch
